import Mathlib

/-!
Verification of the issue-lifecycle state machine of this repository.

The development shallowly embeds the two status managers found in the source:

* `src/azure/status-manager.py` — `IssueStateManager`, a file-backed store
  whose `transition_status` validates each transition against the table in
  `_is_valid_transition` before persisting (embedded here as `transition_status`
  over a `FileStore`).
* `src/azure/app-simple.py` — `SimpleStatusManager`, an in-memory store whose
  `update_status` performs no transition validation (embedded as
  `update_status` over a `SimpleStore`), together with the webhook handler
  `github_webhook` and the background flow `process_issue_automation`.

Modelling conventions:

* Python floats (confidence scores, costs) are embedded as rationals; the
  approval threshold `0.8` is the exact rational `4/5`.
* Timestamps (`datetime.utcnow().isoformat()`) are embedded as an abstract
  `Nat` clock supplied to each operation.
* Python `**kwargs` reaching the `setattr` update loop are embedded at two
  levels of generality.  `KwArgs` holds the typed advisory fields the
  repository's own call sites pass (`assigned_agent`, `confidence_score`,
  `estimated_cost`, `estimated_hours`, `pr_number`, `branch_name`,
  `error_message`); it suffices for `SimpleStatusManager.update_status`,
  whose kwargs come only from those call sites.  `ExtraKwArgs` additionally
  holds every other `IssueState` attribute the loop's `hasattr` check accepts
  (`status`, `created_at`, `updated_at`, `status_history`), because the
  `/status/update` endpoint forwards arbitrary JSON keys into
  `transition_status` via `**data.get("extra", {})`.  In both, keyword
  arguments named `repository`, `issue_number`, `new_status` or `message`
  can never reach the loop: they collide with the like-named positional
  parameters of `update_issue_status` / `transition_status` /
  `update_status`, so Python raises `TypeError` at the call site before any
  mutation happens.
* The external collaborators excluded by the spec (keyword classifier, cost
  arithmetic, GitHub API) enter as inputs: `AnalysisInput` carries the
  classifier's outputs and `PrOutcome` the PR-manager's outcome.
-/

/-- Issue status states, `IssueStatus` of `src/azure/app-simple.py` (12 values
including `pr_created`).  The enum in `src/azure/status-manager.py` is the same
list without `PR_CREATED`; both are embedded into this one type, and the
validation table below treats `pr_created` exactly as the Python dict lookup
`valid_transitions.get(from_status, [])` would: it is not a key, so the lookup
defaults to the empty list. -/
inductive IssueStatus where
  | new
  | analyzing
  | analyzed
  | approved
  | in_progress
  | pr_created
  | blocked
  | review_needed
  | completed
  | merged
  | closed
  | rejected
deriving DecidableEq, BEq, Repr, Fintype

/-- The `valid_transitions` dict of `IssueStateManager._is_valid_transition`
(`src/azure/status-manager.py`, lines 281-293).  `pr_created` is not a key of
the Python dict (that file's enum does not even define it), so it maps to the
`.get` default `[]`; no right-hand side mentions it either. -/
def valid_transitions : IssueStatus → List IssueStatus
  | .new => [.analyzing, .rejected]
  | .analyzing => [.analyzed, .rejected]
  | .analyzed => [.approved, .review_needed, .rejected]
  | .approved => [.in_progress, .blocked]
  | .in_progress => [.completed, .blocked, .review_needed]
  | .blocked => [.in_progress, .review_needed, .rejected]
  | .review_needed => [.approved, .rejected, .in_progress]
  | .completed => [.merged, .closed]
  | .merged => []
  | .closed => []
  | .rejected => []
  | .pr_created => []

/-- The membership test `to_status in valid_transitions.get(from_status, [])`
of `IssueStateManager._is_valid_transition` (lines 277-295). -/
def is_valid_transition (from_status to_status : IssueStatus) : Bool :=
  (valid_transitions from_status).contains to_status

/-- Modelled from the spec: the transition graph exactly as section 4.1 of the
specification lists it, edge for edge, including the `IN_PROGRESS → PR_CREATED`
and `PR_CREATED → {COMPLETED, BLOCKED}` edges.  This definition exists only to
be compared with `is_valid_transition`, which is taken from the source. -/
def spec_valid_transitions : IssueStatus → List IssueStatus
  | .new => [.analyzing, .rejected]
  | .analyzing => [.analyzed, .rejected]
  | .analyzed => [.approved, .review_needed, .rejected]
  | .approved => [.in_progress, .blocked]
  | .in_progress => [.pr_created, .completed, .blocked, .review_needed]
  | .pr_created => [.completed, .blocked]
  | .blocked => [.in_progress, .review_needed, .rejected]
  | .review_needed => [.approved, .rejected, .in_progress]
  | .completed => [.merged, .closed]
  | .merged => []
  | .closed => []
  | .rejected => []

/-- Modelled from the spec: `validate(from, to)` as section 4.1 describes it,
a pure lookup in the spec's edge table. -/
def spec_validate (from_status to_status : IssueStatus) : Bool :=
  (spec_valid_transitions from_status).contains to_status

/-- The typed advisory keyword arguments the repository's own call sites pass
into the `for key, value in kwargs.items(): if hasattr(...): setattr(...)`
update loop of `transition_status` / `update_status`.  A field holding
`some v` models the key being present with value `v`; `none` models the key
being absent.  The full attribute surface reachable through the
`/status/update` endpoint's raw-JSON `extra` dict (which additionally covers
`status`, `created_at`, `updated_at` and `status_history`) is modelled by
`ExtraKwArgs` below; `repository` and `issue_number` can never appear in
either (see the module docstring). -/
structure KwArgs where
  assigned_agent : Option String := none
  confidence_score : Option ℚ := none
  estimated_cost : Option ℚ := none
  estimated_hours : Option ℚ := none
  pr_number : Option Nat := none
  branch_name : Option String := none
  error_message : Option String := none
deriving DecidableEq, Repr

/-- One element of `status_history`.  `transition_status`
(`status-manager.py`) appends a dict with a `details` key holding the kwargs;
`update_status` (`app-simple.py`) appends a dict with a `message` key; the
optional fields cover both shapes. -/
structure HistoryEntry where
  from_status : IssueStatus
  to_status : IssueStatus
  timestamp : Nat
  details : Option KwArgs := none
  message : Option String := none
deriving DecidableEq, Repr

/-- The `IssueState` dataclass (identical in both source files). -/
structure IssueState where
  issue_number : Nat
  repository : String
  status : IssueStatus
  assigned_agent : Option String := none
  confidence_score : ℚ := 0
  estimated_cost : ℚ := 0
  estimated_hours : ℚ := 0
  created_at : Nat := 0
  updated_at : Nat := 0
  pr_number : Option Nat := none
  branch_name : Option String := none
  error_message : Option String := none
  status_history : List HistoryEntry := []
deriving DecidableEq, Repr

/-- A freshly constructed `IssueState(issue_number=n, repository=repo,
status=IssueStatus.NEW)`: `__post_init__` gives it an empty history and sets
`created_at` / `updated_at` to the current time. -/
def freshIssueState (repository : String) (issue_number : Nat) (now : Nat) :
    IssueState :=
  { issue_number := issue_number
    repository := repository
    status := .new
    created_at := now
    updated_at := now }

/-- The kwargs update loop: for each key present, `setattr` the like-named
field. -/
def apply_kwargs (s : IssueState) (kw : KwArgs) : IssueState :=
  { s with
    assigned_agent :=
      match kw.assigned_agent with
      | some v => some v
      | none => s.assigned_agent
    confidence_score := kw.confidence_score.getD s.confidence_score
    estimated_cost := kw.estimated_cost.getD s.estimated_cost
    estimated_hours := kw.estimated_hours.getD s.estimated_hours
    pr_number :=
      match kw.pr_number with
      | some v => some v
      | none => s.pr_number
    branch_name :=
      match kw.branch_name with
      | some v => some v
      | none => s.branch_name
    error_message :=
      match kw.error_message with
      | some v => some v
      | none => s.error_message }

/-- The `(from_status, to_status)` projection of a record's `status_history`,
used to state audit properties. -/
def historyPairs (s : IssueState) : List (IssueStatus × IssueStatus) :=
  s.status_history.map fun e => (e.from_status, e.to_status)

/-! ### The file-backed store of `src/azure/status-manager.py` -/

/-- Contents of one state file: either valid JSON for a record, or anything
that makes `load_state`'s read/parse raise (unreadable file, corrupt JSON,
unknown status string). -/
inductive FileContent where
  | good (s : IssueState)
  | corrupt
deriving DecidableEq, Repr

/-- The storage directory: a map from file path to file contents (`none` =
file does not exist). -/
abbrev FileStore := String → Option FileContent

/-- The `repository.replace("/", "_")` of `_get_state_file`: since the pattern
is the single character `/`, Python's `str.replace` is exactly a character
map. -/
def replace_slashes (repository : String) : String :=
  String.mk (repository.data.map fun c => if c = '/' then '_' else c)

/-- `IssueStateManager._get_state_file`. -/
def get_state_file (repository : String) (issue_number : Nat) : String :=
  replace_slashes repository ++ "_issue_" ++ toString issue_number ++ ".json"

/-- `IssueStateManager.save_state`: serialise and write the record at the path
derived from the record's own `repository` and `issue_number`. -/
def save_state (store : FileStore) (s : IssueState) : FileStore :=
  fun f =>
    if f = get_state_file s.repository s.issue_number then
      some (FileContent.good s)
    else store f

/-- `IssueStateManager.load_state` (lines 210-228): a missing file returns
`None`; a file whose read or parse raises is caught by the blanket
`except Exception` and also returns `None`. -/
def load_state (store : FileStore) (repository : String) (issue_number : Nat) :
    Option IssueState :=
  match store (get_state_file repository issue_number) with
  | none => none
  | some (FileContent.good s) => some s
  | some FileContent.corrupt => none

/-- The successful-transition update of `transition_status` (lines 249-265):
set the new status and `updated_at`, run the kwargs loop, then append the
history entry recording the old and new status with the kwargs as `details`. -/
def transition_apply (s : IssueState) (new_status : IssueStatus) (kw : KwArgs)
    (now : Nat) : IssueState :=
  let s2 := apply_kwargs { s with status := new_status, updated_at := now } kw
  { s2 with
    status_history := s2.status_history ++
      [{ from_status := s.status
         to_status := new_status
         timestamp := now
         details := some kw }] }

/-- `IssueStateManager.transition_status` (lines 230-275): load the record
(creating a fresh `NEW` one if none exists), validate the transition and
return `None` without touching storage if it is invalid, otherwise apply the
update, save, and return the updated record. -/
def transition_status (store : FileStore) (repository : String)
    (issue_number : Nat) (new_status : IssueStatus) (kw : KwArgs) (now : Nat) :
    Option IssueState × FileStore :=
  let current :=
    (load_state store repository issue_number).getD
      (freshIssueState repository issue_number now)
  if is_valid_transition current.status new_status then
    let s' := transition_apply current new_status kw now
    (some s', save_state store s')
  else
    (none, store)

/-! ### The in-memory store of `src/azure/app-simple.py` -/

/-- The `self.states` dict of `SimpleStatusManager`, keyed by the string
`f"{repository}_{issue_number}"`. -/
abbrev SimpleStore := String → Option IssueState

/-- The dict key `f"{repository}_{issue_number}"` of
`SimpleStatusManager.update_status`. -/
def simple_key (repository : String) (issue_number : Nat) : String :=
  repository ++ "_" ++ toString issue_number

/-- The record update performed by `update_status` (lines 153-168): set the
new status and `updated_at`, run the kwargs loop, then append the history
entry with the old status and the free-text `message`. -/
def update_apply (s : IssueState) (new_status : IssueStatus) (message : String)
    (kw : KwArgs) (now : Nat) : IssueState :=
  let s2 := apply_kwargs { s with status := new_status, updated_at := now } kw
  { s2 with
    status_history := s2.status_history ++
      [{ from_status := s.status
         to_status := new_status
         timestamp := now
         message := some message }] }

/-- `SimpleStatusManager.update_status` (lines 136-182): get or create the
record, apply the update with no transition validation of any kind, store it
back and return `True`. -/
def update_status (states : SimpleStore) (repository : String)
    (issue_number : Nat) (new_status : IssueStatus) (message : String)
    (kw : KwArgs) (now : Nat) : Bool × SimpleStore :=
  (true,
   fun k =>
     if k = simple_key repository issue_number then
       some (update_apply
         ((states (simple_key repository issue_number)).getD
           (freshIssueState repository issue_number now))
         new_status message kw now)
     else states k)

/-- The read path of the `/status/{repository}/{issue_number}` endpoint of
`app-simple.py`: look the record up in `automation.status_manager.states`. -/
def issue_record (states : SimpleStore) (repository : String)
    (issue_number : Nat) : Option IssueState :=
  states (simple_key repository issue_number)

/-- Outputs of the issue classifier inside `AzureIssueAutomation.analyze_issue`
(keyword heuristics, priority and complexity scoring, agent selection and cost
arithmetic — all excluded collaborator logic per the spec); the lifecycle flow
consumes them as given. -/
structure AnalysisInput where
  issue_type : String
  priority : String
  complexity_score : ℚ
  confidence : ℚ
  agent : String
  model : String
  estimated_cost : ℚ
deriving DecidableEq, Repr

/-- The lifecycle part of `AzureIssueAutomation.analyze_issue` (lines
495-517): commit the `ANALYZED` status with the advisory fields, and return
the `auto_execute` decision `confidence >= 0.8` (`0.8` as the exact rational
`4/5`). -/
def analyze_issue (states : SimpleStore) (repository : String)
    (issue_number : Nat) (a : AnalysisInput) (now : Nat) :
    SimpleStore × Bool :=
  ((update_status states repository issue_number .analyzed
      "Analysis complete"
      { assigned_agent := some a.agent
        confidence_score := some a.confidence
        estimated_cost := some a.estimated_cost
        estimated_hours := some (a.complexity_score * 8) }
      now).2,
   decide ((4 : ℚ) / 5 ≤ a.confidence))

/-- Outcome of the PR-manager collaborator inside the automated branch of
`process_issue_automation`: `create_pull_request` returns a PR number and the
later `merge_pull_request` succeeds or fails, or `create_pull_request` returns
`None`, or the PR workflow raises and lands in the `except pr_error` handler. -/
inductive PrOutcome where
  | created_merged (pr_number : Nat)
  | created_merge_failed (pr_number : Nat)
  | create_failed
  | raised (err : String)
deriving DecidableEq, Repr

/-- The background task `process_issue_automation` (`app-simple.py`, lines
647-784): commit `ANALYZING`, run the analysis (which commits `ANALYZED`),
then either approve and drive the PR workflow or ask for review.  The
`asyncio.sleep` simulation delays are irrelevant to state and elided; the
clock advances by one per commit. -/
def process_issue_automation (states : SimpleStore) (repository : String)
    (issue_number : Nat) (a : AnalysisInput) (pr : PrOutcome) (now : Nat) :
    SimpleStore :=
  let st1 := (update_status states repository issue_number .analyzing
    "AI is analyzing the issue content and requirements" {} now).2
  let r := analyze_issue st1 repository issue_number a (now + 1)
  if r.2 then
    let st3 := (update_status r.1 repository issue_number .approved
      "High confidence - approved for automation"
      { branch_name :=
          some ("ai/issue-" ++ toString issue_number ++ "-" ++ a.issue_type) }
      (now + 2)).2
    let st4 := (update_status st3 repository issue_number .in_progress
      "Automated execution started" {} (now + 3)).2
    match pr with
    | .created_merged p =>
        let st5 := (update_status st4 repository issue_number .pr_created
          "Pull request created and ready for review"
          { pr_number := some p } (now + 4)).2
        let st6 := (update_status st5 repository issue_number .completed
          "Implementation completed, pull request ready for merge"
          { pr_number := some p } (now + 5)).2
        (update_status st6 repository issue_number .merged
          "Pull request successfully merged, issue resolved"
          { pr_number := some p } (now + 6)).2
    | .created_merge_failed p =>
        let st5 := (update_status st4 repository issue_number .pr_created
          "Pull request created and ready for review"
          { pr_number := some p } (now + 4)).2
        let st6 := (update_status st5 repository issue_number .completed
          "Implementation completed, pull request ready for merge"
          { pr_number := some p } (now + 5)).2
        (update_status st6 repository issue_number .blocked
          "Failed to merge pull request, manual intervention required"
          { pr_number := some p } (now + 6)).2
    | .create_failed =>
        (update_status st4 repository issue_number .blocked
          "Failed to create pull request, check repository permissions"
          {} (now + 4)).2
    | .raised e =>
        (update_status st4 repository issue_number .blocked
          "PR workflow failed" { error_message := some e } (now + 4)).2
  else
    (update_status r.1 repository issue_number .review_needed
      "Lower confidence - human review recommended" {} (now + 2)).2

/-- The `issues opened` branch of the `/webhook/github` handler (lines
620-634): set the initial `NEW` status (before scheduling
`process_issue_automation` as a background task). -/
def github_webhook (states : SimpleStore) (repository : String)
    (issue_number : Nat) (now : Nat) : SimpleStore :=
  (update_status states repository issue_number .new
    "Issue received, starting automated analysis" {} now).2

/-- A complete run for a freshly opened issue: the webhook sets `NEW` on the
empty store, then the background task runs to completion. -/
def run_fresh_issue (repository : String) (issue_number : Nat)
    (a : AnalysisInput) (pr : PrOutcome) : SimpleStore :=
  process_issue_automation (github_webhook (fun _ => none) repository issue_number 0)
    repository issue_number a pr 1

/-- The full keyword-argument surface reachable by `transition_status`'s
`setattr` update loop through the `/status/update` endpoint, which forwards
arbitrary JSON keys via `**data.get("extra", {})`: besides the seven advisory
fields of `KwArgs`, any other `IssueState` attribute name passes the
`hasattr` check — `status`, `created_at`, `updated_at` and `status_history`.
(`repository`, `issue_number`, `new_status` and `message` still cannot
appear: they collide with the like-named positional parameters and raise
`TypeError` at the call site.)  Raw JSON values are modelled at the
corresponding typed values. -/
structure ExtraKwArgs where
  advisory : KwArgs := {}
  status : Option IssueStatus := none
  created_at : Option Nat := none
  updated_at : Option Nat := none
  status_history : Option (List HistoryEntry) := none
deriving DecidableEq, Repr

/-- The kwargs update loop over the full reachable key surface: each present
key is `setattr` on the like-named field. -/
def apply_extra_kwargs (s : IssueState) (e : ExtraKwArgs) : IssueState :=
  let s1 := apply_kwargs s e.advisory
  { s1 with
    status := e.status.getD s1.status
    created_at := e.created_at.getD s1.created_at
    updated_at := e.updated_at.getD s1.updated_at
    status_history := e.status_history.getD s1.status_history }

/-- The successful-transition update of `transition_status` (lines 249-265)
over the full reachable kwargs surface: set the new status and `updated_at`,
run the kwargs loop (which may overwrite both, and may replace the stored
history), then append the history entry; the entry's timestamp reads
`updated_at` after the loop.  The `details` snapshot keeps the advisory
fields (no claim inspects `details`, and the extra keys cannot be stored in
the `HistoryEntry` type without circularity). -/
def transition_apply_extra (s : IssueState) (new_status : IssueStatus)
    (e : ExtraKwArgs) (now : Nat) : IssueState :=
  let s2 := apply_extra_kwargs { s with status := new_status, updated_at := now } e
  { s2 with
    status_history := s2.status_history ++
      [{ from_status := s.status
         to_status := new_status
         timestamp := s2.updated_at
         details := some e.advisory }] }

/-- `IssueStateManager.transition_status` over the full reachable kwargs
surface (same load-validate-apply-save logic as `transition_status`). -/
def transition_status_extra (store : FileStore) (repository : String)
    (issue_number : Nat) (new_status : IssueStatus) (e : ExtraKwArgs)
    (now : Nat) : Option IssueState × FileStore :=
  let current :=
    (load_state store repository issue_number).getD
      (freshIssueState repository issue_number now)
  if is_valid_transition current.status new_status then
    let s' := transition_apply_extra current new_status e now
    (some s', save_state store s')
  else
    (none, store)

/-- One orchestration run of repeated `transition_status` calls on a single
key, over the full reachable kwargs surface: apply each requested (target
status, kwargs) pair in order, advancing the clock by one per attempt, and
collect the `(from, to)` pairs of the attempts that were accepted
(committed). -/
def run_transitions (repository : String) (issue_number : Nat) :
    FileStore → List (IssueStatus × ExtraKwArgs) → Nat →
      FileStore × List (IssueStatus × IssueStatus)
  | store, [], _ => (store, [])
  | store, (t, e) :: rest, now =>
    let res := transition_status_extra store repository issue_number t e now
    let r := run_transitions repository issue_number res.2 rest (now + 1)
    if res.1.isSome then
      (r.1,
       (((load_state store repository issue_number).getD
           (freshIssueState repository issue_number now)).status, t) :: r.2)
    else r

/-- One run of repeated `SimpleStatusManager.update_status` calls on a single
key (every call commits — the manager validates nothing): apply each
requested (target status, message, kwargs) triple in order and collect the
`(from, to)` pairs of the commits.  The kwargs here are the typed `KwArgs`:
`app-simple.py` has no endpoint forwarding raw JSON extras into this manager,
so only the repository's own typed call sites reach its update loop. -/
def run_updates (repository : String) (issue_number : Nat) :
    SimpleStore → List (IssueStatus × String × KwArgs) → Nat →
      SimpleStore × List (IssueStatus × IssueStatus)
  | states, [], _ => (states, [])
  | states, (t, msg, kw) :: rest, now =>
    let states' := (update_status states repository issue_number t msg kw now).2
    let r := run_updates repository issue_number states' rest (now + 1)
    (r.1,
     (((states (simple_key repository issue_number)).getD
         (freshIssueState repository issue_number now)).status, t) :: r.2)

/-- Audit invariant tying the store's record at one key to the list of
commits performed so far on that key: either no record exists and nothing was
committed, or the record's history is exactly the commit list, in order, and
the last commit's target is the record's current status. -/
def StoreOk (store : FileStore) (repository : String) (issue_number : Nat)
    (commits : List (IssueStatus × IssueStatus)) : Prop :=
  (load_state store repository issue_number = none ∧ commits = []) ∨
  (∃ s, load_state store repository issue_number = some s ∧
    s.repository = repository ∧ s.issue_number = issue_number ∧
    historyPairs s = commits ∧
    commits.getLast?.map Prod.snd = some s.status)

/-- The same audit invariant for the in-memory store of
`SimpleStatusManager`. -/
def SimpleOk (states : SimpleStore) (repository : String) (issue_number : Nat)
    (commits : List (IssueStatus × IssueStatus)) : Prop :=
  (states (simple_key repository issue_number) = none ∧ commits = []) ∨
  (∃ s, states (simple_key repository issue_number) = some s ∧
    historyPairs s = commits ∧
    commits.getLast?.map Prod.snd = some s.status)

/-- A stored record already in the terminal status MERGED. -/
def merged_state : IssueState :=
  { issue_number := 7, repository := "octo/demo", status := .merged }

/-- A file store holding `merged_state` at its key. -/
def merged_file_store : FileStore :=
  fun f =>
    if f = get_state_file "octo/demo" 7 then some (FileContent.good merged_state)
    else none

/-- An in-memory store holding `merged_state` at its key. -/
def simple_merged_store : SimpleStore :=
  fun k => if k = simple_key "octo/demo" 7 then some merged_state else none

/-- A file store whose state file for the key exists but cannot be read or
parsed. -/
def corrupt_store : FileStore :=
  fun f =>
    if f = get_state_file "octo/demo" 7 then some FileContent.corrupt else none

/-- A stored record in status NEW, used to witness accepted transitions. -/
def new_state : IssueState :=
  { issue_number := 7, repository := "octo/demo", status := .new }

/-- A file store holding `new_state` at its key. -/
def new_file_store : FileStore :=
  fun f =>
    if f = get_state_file "octo/demo" 7 then some (FileContent.good new_state)
    else none

/-- A stored record in status BLOCKED with an error message set. -/
def blocked_state : IssueState :=
  { issue_number := 7, repository := "octo/demo", status := .blocked,
    error_message := some "merge failed" }

/-- An in-memory store holding `blocked_state` at its key. -/
def simple_blocked_store : SimpleStore :=
  fun k => if k = simple_key "octo/demo" 7 then some blocked_state else none

/-- A concrete request sequence: one valid transition, one invalid attempt,
one valid transition, none carrying bookkeeping overrides. -/
def audit_reqs : List (IssueStatus × ExtraKwArgs) :=
  [(.analyzing, {}), (.merged, {}), (.analyzed, {})]

/-- A concrete update sequence for the in-memory manager (which commits
everything, valid edge or not). -/
def update_reqs : List (IssueStatus × String × KwArgs) :=
  [(.analyzing, "analysis started", {}), (.merged, "direct to merged", {})]

/-- Concrete classifier output with confidence 0.9 (at or above the 0.8
approval threshold). -/
def analysis_high : AnalysisInput :=
  { issue_type := "bug", priority := "high", complexity_score := 1/2,
    confidence := 9/10, agent := "debugger", model := "sonnet",
    estimated_cost := 3/100 }

/-- Concrete classifier output with confidence 0.4 (below the 0.8 approval
threshold). -/
def analysis_low : AnalysisInput :=
  { issue_type := "documentation", priority := "medium",
    complexity_score := 3/10, confidence := 2/5,
    agent := "comprehensive-researcher", model := "haiku",
    estimated_cost := 1/100 }

/-! ### Projection and store lemmas -/

@[simp]
lemma apply_kwargs_status (s : IssueState) (kw : KwArgs) :
    (apply_kwargs s kw).status = s.status := rfl

@[simp]
lemma apply_kwargs_status_history (s : IssueState) (kw : KwArgs) :
    (apply_kwargs s kw).status_history = s.status_history := rfl

@[simp]
lemma transition_apply_status (s : IssueState) (t : IssueStatus) (kw : KwArgs)
    (now : Nat) : (transition_apply s t kw now).status = t := rfl

@[simp]
lemma transition_apply_repository (s : IssueState) (t : IssueStatus)
    (kw : KwArgs) (now : Nat) :
    (transition_apply s t kw now).repository = s.repository := rfl

@[simp]
lemma transition_apply_issue_number (s : IssueState) (t : IssueStatus)
    (kw : KwArgs) (now : Nat) :
    (transition_apply s t kw now).issue_number = s.issue_number := rfl

@[simp]
lemma transition_apply_historyPairs (s : IssueState) (t : IssueStatus)
    (kw : KwArgs) (now : Nat) :
    historyPairs (transition_apply s t kw now) =
      historyPairs s ++ [(s.status, t)] := by
  simp [historyPairs, transition_apply]

@[simp]
lemma update_apply_status (s : IssueState) (t : IssueStatus) (msg : String)
    (kw : KwArgs) (now : Nat) : (update_apply s t msg kw now).status = t := rfl

@[simp]
lemma update_apply_repository (s : IssueState) (t : IssueStatus) (msg : String)
    (kw : KwArgs) (now : Nat) :
    (update_apply s t msg kw now).repository = s.repository := rfl

@[simp]
lemma update_apply_issue_number (s : IssueState) (t : IssueStatus)
    (msg : String) (kw : KwArgs) (now : Nat) :
    (update_apply s t msg kw now).issue_number = s.issue_number := rfl

@[simp]
lemma update_apply_error_message (s : IssueState) (t : IssueStatus)
    (msg : String) (kw : KwArgs) (now : Nat) :
    (update_apply s t msg kw now).error_message =
      match kw.error_message with
      | some v => some v
      | none => s.error_message := rfl

@[simp]
lemma update_apply_historyPairs (s : IssueState) (t : IssueStatus)
    (msg : String) (kw : KwArgs) (now : Nat) :
    historyPairs (update_apply s t msg kw now) =
      historyPairs s ++ [(s.status, t)] := by
  simp [historyPairs, update_apply]

@[simp]
lemma freshIssueState_status (repository : String) (issue_number now : Nat) :
    (freshIssueState repository issue_number now).status = .new := rfl

@[simp]
lemma freshIssueState_historyPairs (repository : String)
    (issue_number now : Nat) :
    historyPairs (freshIssueState repository issue_number now) = [] := rfl

@[simp]
lemma freshIssueState_error_message (repository : String)
    (issue_number now : Nat) :
    (freshIssueState repository issue_number now).error_message = none := rfl

lemma update_status_at_key (states : SimpleStore) (repository : String)
    (issue_number : Nat) (new_status : IssueStatus) (message : String)
    (kw : KwArgs) (now : Nat) :
    (update_status states repository issue_number new_status message kw now).2
        (simple_key repository issue_number) =
      some (update_apply
        ((states (simple_key repository issue_number)).getD
          (freshIssueState repository issue_number now))
        new_status message kw now) := by
  simp [update_status]

lemma is_valid_transition_of_terminal (s t : IssueStatus)
    (h : s = .merged ∨ s = .closed ∨ s = .rejected) :
    is_valid_transition s t = false := by
  rcases h with h | h | h <;> subst h <;> revert t <;> decide

/-! ### Claims -/

/-- C1 (counterexample): the validation function does not match the spec's
section 4.1 graph exactly: the spec lists the edge
`IN_PROGRESS → PR_CREATED`, but `is_valid_transition` rejects it (the
`valid_transitions` dict in `status-manager.py` has no `PR_CREATED`
entries at all). -/
theorem C1_counterexample :
    spec_validate .in_progress .pr_created = true ∧
    is_valid_transition .in_progress .pr_created = false := by decide

/-- C1 (amended): `is_valid_transition` agrees with the spec's section 4.1
graph on every ordered pair of statuses except those involving `PR_CREATED`:
it returns true exactly on the spec edges whose source and target both differ
from `PR_CREATED`, and in particular returns false for `IN_PROGRESS →
PR_CREATED`, for every pair leaving `PR_CREATED`, for every self-loop and
for every pair whose source is `MERGED`, `CLOSED` or `REJECTED`. -/
theorem C1_validate_matches_spec_except_pr_created :
    ∀ f t, is_valid_transition f t =
      (spec_validate f t && !(f == IssueStatus.pr_created) &&
        !(t == IssueStatus.pr_created)) := by decide

/-- C2 (counterexample): the in-memory manager of `app-simple.py` performs no
validation, so a commit attempt on a key whose record is MERGED succeeds and
mutates the stored record, changing its status and growing its history —
the claim's "every subsequent commit attempt on that key is rejected and the
record left unchanged" fails there. -/
theorem C2_counterexample :
    ((update_status simple_merged_store "octo/demo" 7 .analyzing
          "duplicate delivery" {} 10).2 (simple_key "octo/demo" 7)).map
        (fun s => (s.status, historyPairs s)) =
      some (.analyzing, [(.merged, .analyzing)]) := by decide

/-- C2 (amended): terminal-state immutability holds for the validating
file-backed manager: for every stored record whose status is MERGED, CLOSED
or REJECTED, every `transition_status` attempt on that key (any target
status) returns `none` — the invalid-transition result — and leaves the
store, hence the record and its history, unchanged.  The in-memory
`SimpleStatusManager.update_status` performs no validation and does not have
this property (see the counterexample). -/
theorem C2_terminal_states_immutable (store : FileStore) (repository : String)
    (issue_number : Nat) (new_status : IssueStatus) (kw : KwArgs) (now : Nat)
    (s : IssueState)
    (hload : load_state store repository issue_number = some s)
    (hterm : s.status = .merged ∨ s.status = .closed ∨ s.status = .rejected) :
    transition_status store repository issue_number new_status kw now =
      (none, store) := by
  have hv := is_valid_transition_of_terminal s.status new_status hterm
  simp [transition_status, hload, hv]

/-- C2 (witness): a concrete MERGED record rejects a concrete commit. -/
theorem C2_witness :
    transition_status merged_file_store "octo/demo" 7 .closed {} 9 =
      (none, merged_file_store) :=
  C2_terminal_states_immutable merged_file_store "octo/demo" 7 .closed {} 9
    merged_state (by decide) (Or.inl rfl)

/-- C3: invalid-transition commits are atomic no-ops in
`IssueStateManager.transition_status`: whenever the attempted transition from
the current status (the stored record's status, or NEW when no record exists)
to the target is not in the transition table, the operation returns `none`
(an error result, not an exception) and the store is exactly what it was
before the attempt. -/
theorem C3_invalid_transition_noop (store : FileStore) (repository : String)
    (issue_number : Nat) (new_status : IssueStatus) (kw : KwArgs) (now : Nat)
    (h : is_valid_transition
      ((load_state store repository issue_number).getD
        (freshIssueState repository issue_number now)).status new_status =
      false) :
    transition_status store repository issue_number new_status kw now =
      (none, store) := by
  simp [transition_status, h]

/-- C3 (witness): attempting NEW → MERGED on an empty store is a no-op
returning `none`. -/
theorem C3_witness :
    transition_status (fun _ => none) "octo/demo" 7 .merged {} 0 =
      (none, fun _ => none) :=
  C3_invalid_transition_noop (fun _ => none) "octo/demo" 7 .merged {} 0
    (by decide)

/-- C7 (counterexample): `load_state` returns `None` for a key whose state
file exists but is unreadable/corrupt — the very same value it returns when
no record exists — so a storage failure is not surfaced as a distinct
`StorageUnavailable` error and is indistinguishable from "no such issue". -/
theorem C7_counterexample :
    corrupt_store (get_state_file "octo/demo" 7) = some FileContent.corrupt ∧
    load_state corrupt_store "octo/demo" 7 = none ∧
    load_state (fun _ => none) "octo/demo" 7 = none := by decide

/-- C7 (amended): `load_state` returns `None` both when the state file for
the key does not exist and when reading or parsing the state file fails (the
blanket `except Exception` returns `None`); callers cannot distinguish
absence from storage failure. -/
theorem C7_load_conflates_failure_with_absence (store : FileStore)
    (repository : String) (issue_number : Nat) :
    (store (get_state_file repository issue_number) = none →
      load_state store repository issue_number = none) ∧
    (store (get_state_file repository issue_number) = some FileContent.corrupt →
      load_state store repository issue_number = none) := by
  constructor <;> intro h <;> simp [load_state, h]

/-- C7 (witness): both branches at concrete stores. -/
theorem C7_witness :
    load_state (fun _ => none) "octo/demo" 8 = none ∧
    load_state corrupt_store "octo/demo" 7 = none :=
  ⟨(C7_load_conflates_failure_with_absence (fun _ => none) "octo/demo" 8).1 rfl,
   (C7_load_conflates_failure_with_absence corrupt_store "octo/demo" 7).2
     (by decide)⟩

/-- C9: key-field immutability: a committed transition
(`transition_status`, first conjunct) and a status update
(`update_status`, second conjunct) never change the stored record's
`repository` or `issue_number`.  Keyword arguments named `repository` or
`issue_number` cannot reach the `setattr` update loop at all: they collide
with the like-named positional parameters and raise `TypeError` at the call
site (see the `KwArgs` docstring), so the update loop leaves both fields
untouched. -/
theorem C9_key_fields_immutable :
    (∀ (store : FileStore) (repository : String) (issue_number : Nat)
        (new_status : IssueStatus) (kw : KwArgs) (now : Nat)
        (s s' : IssueState),
        load_state store repository issue_number = some s →
        (transition_status store repository issue_number new_status kw now).1 =
          some s' →
        s'.repository = s.repository ∧ s'.issue_number = s.issue_number) ∧
    (∀ (states : SimpleStore) (repository : String) (issue_number : Nat)
        (new_status : IssueStatus) (message : String) (kw : KwArgs) (now : Nat)
        (s : IssueState),
        states (simple_key repository issue_number) = some s →
        ((update_status states repository issue_number new_status message kw
              now).2 (simple_key repository issue_number)).map
            (fun r => (r.repository, r.issue_number)) =
          some (s.repository, s.issue_number)) := by
  constructor
  · intro store repository issue_number new_status kw now s s' hload hres
    simp only [transition_status, hload, Option.getD_some] at hres
    by_cases hv : is_valid_transition s.status new_status
    · rw [if_pos hv] at hres
      cases hres
      exact ⟨rfl, rfl⟩
    · rw [if_neg hv] at hres
      exact absurd hres (by simp)
  · intro states repository issue_number new_status message kw now s hs
    rw [update_status_at_key]
    simp [hs]

/-- C9 (witness): concrete accepted transition and concrete update both
preserve the key fields. -/
theorem C9_witness :
    ((transition_apply new_state .analyzing {} 3).repository =
        new_state.repository ∧
      (transition_apply new_state .analyzing {} 3).issue_number =
        new_state.issue_number) ∧
    ((update_status simple_merged_store "octo/demo" 7 .analyzing "m" {} 3).2
          (simple_key "octo/demo" 7)).map
        (fun r => (r.repository, r.issue_number)) =
      some (merged_state.repository, merged_state.issue_number) :=
  ⟨C9_key_fields_immutable.1 new_file_store "octo/demo" 7 .analyzing {} 3
      new_state (transition_apply new_state .analyzing {} 3) (by decide)
      (by decide),
   C9_key_fields_immutable.2 simple_merged_store "octo/demo" 7 .analyzing "m"
      {} 3 merged_state (by decide)⟩

/-- C10 (implicit): when `update_status` is applied to a key with no existing
record, the newly created record's previous status is `NEW` regardless of the
requested target status, so the first (and only) history entry of the fresh
record goes from `NEW` to the target; in particular the webhook handler's
initial update of a fresh issue to `NEW` appends a self-loop entry
`new → new`. -/
theorem C10_fresh_record_history_from_new :
    (∀ (states : SimpleStore) (repository : String) (issue_number : Nat)
        (new_status : IssueStatus) (message : String) (kw : KwArgs) (now : Nat),
        states (simple_key repository issue_number) = none →
        ((update_status states repository issue_number new_status message kw
              now).2 (simple_key repository issue_number)).map historyPairs =
          some [(IssueStatus.new, new_status)]) ∧
    (∀ (repository : String) (issue_number : Nat) (now : Nat),
        (issue_record (github_webhook (fun _ => none) repository issue_number
              now) repository issue_number).map historyPairs =
          some [(IssueStatus.new, IssueStatus.new)]) := by
  have h1 : ∀ (states : SimpleStore) (repository : String) (issue_number : Nat)
      (new_status : IssueStatus) (message : String) (kw : KwArgs) (now : Nat),
      states (simple_key repository issue_number) = none →
      ((update_status states repository issue_number new_status message kw
            now).2 (simple_key repository issue_number)).map historyPairs =
        some [(IssueStatus.new, new_status)] := by
    intro states repository issue_number new_status message kw now hs
    rw [update_status_at_key]
    simp [hs]
  refine ⟨h1, ?_⟩
  intro repository issue_number now
  exact h1 _ _ _ _ _ _ _ rfl

/-- C10 (witness): a fresh record updated straight to MERGED still records
its first history entry as coming from NEW. -/
theorem C10_witness :
    ((update_status (fun _ => none) "octo/demo" 7 .merged "direct" {} 0).2
        (simple_key "octo/demo" 7)).map historyPairs =
      some [(IssueStatus.new, IssueStatus.merged)] :=
  C10_fresh_record_history_from_new.1 (fun _ => none) "octo/demo" 7 .merged
    "direct" {} 0 rfl

/-! ### The audit invariant of repeated transitions (C4) -/

@[simp]
lemma freshIssueState_repository (repository : String) (issue_number now : Nat) :
    (freshIssueState repository issue_number now).repository = repository := rfl

@[simp]
lemma freshIssueState_issue_number (repository : String) (issue_number now : Nat) :
    (freshIssueState repository issue_number now).issue_number = issue_number :=
  rfl

lemma load_save_state (store : FileStore) (s : IssueState) :
    load_state (save_state store s) s.repository s.issue_number = some s := by
  simp [load_state, save_state]

@[simp]
lemma transition_apply_extra_repository (s : IssueState) (t : IssueStatus)
    (e : ExtraKwArgs) (now : Nat) :
    (transition_apply_extra s t e now).repository = s.repository := rfl

@[simp]
lemma transition_apply_extra_issue_number (s : IssueState) (t : IssueStatus)
    (e : ExtraKwArgs) (now : Nat) :
    (transition_apply_extra s t e now).issue_number = s.issue_number := rfl

lemma run_transitions_StoreOk (repository : String) (issue_number : Nat)
    (reqs : List (IssueStatus × ExtraKwArgs)) :
    ∀ (store : FileStore) (now : Nat)
      (commits : List (IssueStatus × IssueStatus)),
      (∀ p ∈ reqs, p.2.status = none ∧ p.2.status_history = none) →
      StoreOk store repository issue_number commits →
      StoreOk (run_transitions repository issue_number store reqs now).1
        repository issue_number
        (commits ++ (run_transitions repository issue_number store reqs now).2) := by
  induction reqs with
  | nil =>
    intro store now commits _ h
    simpa [run_transitions] using h
  | cons req rest ih =>
    obtain ⟨t, e⟩ := req
    intro store now commits hsafe h
    have he0 : e.status = none := (hsafe (t, e) (List.mem_cons_self _ _)).1
    have hh0 : e.status_history = none :=
      (hsafe (t, e) (List.mem_cons_self _ _)).2
    have hrest : ∀ p ∈ rest, p.2.status = none ∧ p.2.status_history = none :=
      fun p hp => hsafe p (List.mem_cons_of_mem _ hp)
    rcases h with ⟨hnone, hcom⟩ | ⟨s, hload, hrepo, hnum, hhist, hlast⟩
    · subst hcom
      by_cases hv : is_valid_transition IssueStatus.new t = true
      · have hacc : transition_status_extra store repository issue_number t e
            now =
            (some (transition_apply_extra
                (freshIssueState repository issue_number now) t e now),
             save_state store
               (transition_apply_extra
                 (freshIssueState repository issue_number now) t e now)) := by
          simp [transition_status_extra, hnone, hv]
        have hrun : run_transitions repository issue_number store
            ((t, e) :: rest) now =
            ((run_transitions repository issue_number
                (save_state store
                  (transition_apply_extra
                    (freshIssueState repository issue_number now) t e now))
                rest (now + 1)).1,
             (IssueStatus.new, t) ::
               (run_transitions repository issue_number
                 (save_state store
                   (transition_apply_extra
                     (freshIssueState repository issue_number now) t e now))
                 rest (now + 1)).2) := by
          simp [run_transitions, hacc, hnone]
        rw [hrun]
        have hok : StoreOk
            (save_state store
              (transition_apply_extra
                (freshIssueState repository issue_number now) t e now))
            repository issue_number [(IssueStatus.new, t)] := by
          refine Or.inr
            ⟨transition_apply_extra (freshIssueState repository issue_number now)
              t e now, ?_, rfl, rfl, ?_, ?_⟩
          · have h0 := load_save_state store
              (transition_apply_extra
                (freshIssueState repository issue_number now) t e now)
            rwa [transition_apply_extra_repository,
              transition_apply_extra_issue_number, freshIssueState_repository,
              freshIssueState_issue_number] at h0
          · simp [historyPairs, transition_apply_extra, apply_extra_kwargs,
              freshIssueState, hh0]
          · simp [transition_apply_extra, apply_extra_kwargs, he0]
        have hrest2 := ih _ (now + 1) [(IssueStatus.new, t)] hrest hok
        simpa using hrest2
      · rw [Bool.not_eq_true] at hv
        have hrej : transition_status_extra store repository issue_number t e
            now = (none, store) := by
          simp [transition_status_extra, hnone, hv]
        have hrun : run_transitions repository issue_number store
            ((t, e) :: rest) now =
            run_transitions repository issue_number store rest (now + 1) := by
          simp [run_transitions, hrej]
        rw [hrun]
        exact ih store (now + 1) [] hrest (Or.inl ⟨hnone, rfl⟩)
    · by_cases hv : is_valid_transition s.status t = true
      · have hacc : transition_status_extra store repository issue_number t e
            now =
            (some (transition_apply_extra s t e now),
             save_state store (transition_apply_extra s t e now)) := by
          simp [transition_status_extra, hload, hv]
        have hrun : run_transitions repository issue_number store
            ((t, e) :: rest) now =
            ((run_transitions repository issue_number
                (save_state store (transition_apply_extra s t e now)) rest
                (now + 1)).1,
             (s.status, t) ::
               (run_transitions repository issue_number
                 (save_state store (transition_apply_extra s t e now)) rest
                 (now + 1)).2) := by
          simp [run_transitions, hacc, hload]
        rw [hrun]
        have hok : StoreOk
            (save_state store (transition_apply_extra s t e now))
            repository issue_number (commits ++ [(s.status, t)]) := by
          refine Or.inr ⟨transition_apply_extra s t e now, ?_, ?_, ?_, ?_, ?_⟩
          · have h0 := load_save_state store (transition_apply_extra s t e now)
            rwa [transition_apply_extra_repository,
              transition_apply_extra_issue_number, hrepo, hnum] at h0
          · rw [transition_apply_extra_repository, hrepo]
          · rw [transition_apply_extra_issue_number, hnum]
          · rw [← hhist]
            simp [historyPairs, transition_apply_extra, apply_extra_kwargs, hh0]
          · simp [transition_apply_extra, apply_extra_kwargs, he0]
        have hrest2 := ih _ (now + 1) (commits ++ [(s.status, t)]) hrest hok
        simpa [List.append_assoc] using hrest2
      · rw [Bool.not_eq_true] at hv
        have hrej : transition_status_extra store repository issue_number t e
            now = (none, store) := by
          simp [transition_status_extra, hload, hv]
        have hrun : run_transitions repository issue_number store
            ((t, e) :: rest) now =
            run_transitions repository issue_number store rest (now + 1) := by
          simp [run_transitions, hrej]
        rw [hrun]
        exact ih store (now + 1) commits hrest
          (Or.inr ⟨s, hload, hrepo, hnum, hhist, hlast⟩)

lemma run_updates_SimpleOk (repository : String) (issue_number : Nat)
    (reqs : List (IssueStatus × String × KwArgs)) :
    ∀ (states : SimpleStore) (now : Nat)
      (commits : List (IssueStatus × IssueStatus)),
      SimpleOk states repository issue_number commits →
      SimpleOk (run_updates repository issue_number states reqs now).1
        repository issue_number
        (commits ++ (run_updates repository issue_number states reqs now).2) := by
  induction reqs with
  | nil =>
    intro states now commits h
    simpa [run_updates] using h
  | cons req rest ih =>
    obtain ⟨t, msg, kw⟩ := req
    intro states now commits h
    rcases h with ⟨hnone, hcom⟩ | ⟨s, hs, hhist, hlast⟩
    · subst hcom
      have hrun : run_updates repository issue_number states
          ((t, msg, kw) :: rest) now =
          ((run_updates repository issue_number
              (update_status states repository issue_number t msg kw now).2
              rest (now + 1)).1,
           (IssueStatus.new, t) ::
             (run_updates repository issue_number
               (update_status states repository issue_number t msg kw now).2
               rest (now + 1)).2) := by
        simp [run_updates, hnone]
      rw [hrun]
      have hok : SimpleOk
          (update_status states repository issue_number t msg kw now).2
          repository issue_number [(IssueStatus.new, t)] := by
        refine Or.inr
          ⟨update_apply (freshIssueState repository issue_number now) t msg kw
            now, ?_, ?_, ?_⟩
        · rw [update_status_at_key, hnone]
          rfl
        · simp
        · simp
      have hrest := ih _ (now + 1) [(IssueStatus.new, t)] hok
      simpa using hrest
    · have hrun : run_updates repository issue_number states
          ((t, msg, kw) :: rest) now =
          ((run_updates repository issue_number
              (update_status states repository issue_number t msg kw now).2
              rest (now + 1)).1,
           (s.status, t) ::
             (run_updates repository issue_number
               (update_status states repository issue_number t msg kw now).2
               rest (now + 1)).2) := by
        simp [run_updates, hs]
      rw [hrun]
      have hok : SimpleOk
          (update_status states repository issue_number t msg kw now).2
          repository issue_number (commits ++ [(s.status, t)]) := by
        refine Or.inr ⟨update_apply s t msg kw now, ?_, ?_, ?_⟩
        · rw [update_status_at_key, hs]
          rfl
        · rw [update_apply_historyPairs, hhist]
        · simp
      have hrest := ih _ (now + 1) (commits ++ [(s.status, t)]) hok
      simpa [List.append_assoc] using hrest

/-- C4 (counterexample): the frozen audit claim fails on the code because the
`setattr` update loop accepts bookkeeping keys that the `/status/update`
endpoint forwards from raw JSON.  First conjunct: two commit attempts both
succeed, but the second carries `status_history := []`, so the stored history
has one entry after two committed transitions — the history was truncated.
Second conjunct: a commit carrying `status := merged` leaves the record's
status MERGED while the appended entry's `to` is ANALYZING, so the last
entry's `to` differs from the current status. -/
theorem C4_counterexample :
    ((transition_status_extra (fun _ => none) "octo/demo" 7 .analyzing {}
        0).1.isSome = true ∧
     (transition_status_extra
        (transition_status_extra (fun _ => none) "octo/demo" 7 .analyzing {}
          0).2 "octo/demo" 7 .analyzed { status_history := some [] }
        1).1.isSome = true ∧
     (load_state
        (transition_status_extra
          (transition_status_extra (fun _ => none) "octo/demo" 7 .analyzing {}
            0).2 "octo/demo" 7 .analyzed { status_history := some [] } 1).2
        "octo/demo" 7).map historyPairs =
       some [(IssueStatus.analyzing, IssueStatus.analyzed)]) ∧
    ((transition_status_extra (fun _ => none) "octo/demo" 7 .analyzing
        { status := some .merged } 0).1).map
      (fun s => (s.status, historyPairs s)) =
      some (IssueStatus.merged, [(IssueStatus.new, IssueStatus.analyzing)]) := by
  decide

/-- C4 (amended): the statusHistory audit invariant holds for every sequence
of commits whose kwargs do not override the bookkeeping fields.  First
conjunct, `IssueStateManager.transition_status` over the full
endpoint-reachable kwargs surface: starting from a key with no record, if no
request carries a `status` or `status_history` key (advisory fields,
`created_at` and `updated_at` may appear freely), the stored history is
exactly the list of accepted commits, one entry per commit in commit order,
and the record's status is the target of the last commit; with no commits no
record exists.  Second conjunct: the same invariant for
`SimpleStatusManager.update_status` with the typed kwargs its repository call
sites pass, where every request commits. -/
theorem C4_status_history_audit_amended :
    (∀ (store : FileStore) (repository : String) (issue_number : Nat)
        (reqs : List (IssueStatus × ExtraKwArgs)) (now : Nat),
      load_state store repository issue_number = none →
      (∀ p ∈ reqs, p.2.status = none ∧ p.2.status_history = none) →
      ((load_state (run_transitions repository issue_number store reqs now).1
          repository issue_number).map historyPairs =
        if (run_transitions repository issue_number store reqs now).2 = []
        then none
        else some (run_transitions repository issue_number store reqs now).2) ∧
      ((load_state (run_transitions repository issue_number store reqs now).1
          repository issue_number).map IssueState.status =
        ((run_transitions repository issue_number store reqs
            now).2.getLast?).map Prod.snd)) ∧
    (∀ (states : SimpleStore) (repository : String) (issue_number : Nat)
        (reqs : List (IssueStatus × String × KwArgs)) (now : Nat),
      states (simple_key repository issue_number) = none →
      ((issue_record (run_updates repository issue_number states reqs now).1
          repository issue_number).map historyPairs =
        if (run_updates repository issue_number states reqs now).2 = []
        then none
        else some (run_updates repository issue_number states reqs now).2) ∧
      ((issue_record (run_updates repository issue_number states reqs now).1
          repository issue_number).map IssueState.status =
        ((run_updates repository issue_number states reqs now).2.getLast?).map
          Prod.snd)) := by
  constructor
  · intro store repository issue_number reqs now hfresh hsafe
    have h := run_transitions_StoreOk repository issue_number reqs store now []
      hsafe (Or.inl ⟨hfresh, rfl⟩)
    rcases h with ⟨hnone, hcom⟩ | ⟨s, hload, _, _, hhist, hlast⟩
    · rw [List.nil_append] at hcom
      rw [hnone, hcom]
      simp
    · rw [List.nil_append] at hhist hlast
      rw [hload]
      have hne : (run_transitions repository issue_number store reqs now).2 ≠
          [] := by
        intro hc
        rw [hc] at hlast
        simp at hlast
      rw [if_neg hne]
      exact ⟨by rw [Option.map_some', hhist], by rw [Option.map_some', hlast]⟩
  · intro states repository issue_number reqs now hfresh
    have h := run_updates_SimpleOk repository issue_number reqs states now []
      (Or.inl ⟨hfresh, rfl⟩)
    rcases h with ⟨hnone, hcom⟩ | ⟨s, hs, hhist, hlast⟩
    · rw [List.nil_append] at hcom
      simp only [issue_record]
      rw [hnone, hcom]
      simp
    · rw [List.nil_append] at hhist hlast
      simp only [issue_record]
      rw [hs]
      have hne : (run_updates repository issue_number states reqs now).2 ≠
          [] := by
        intro hc
        rw [hc] at hlast
        simp at hlast
      rw [if_neg hne]
      exact ⟨by rw [Option.map_some', hhist], by rw [Option.map_some', hlast]⟩

/-- C4 (witness): a concrete override-free three-request run on the empty
file store commits exactly its two valid transitions and satisfies the
invariant, and a concrete two-request run on the empty in-memory store
commits both requests and satisfies it too. -/
theorem C4_amended_witness :
    ((run_transitions "octo/demo" 7 (fun _ => none) audit_reqs 0).2 =
      [(IssueStatus.new, IssueStatus.analyzing),
       (IssueStatus.analyzing, IssueStatus.analyzed)] ∧
     (((load_state (run_transitions "octo/demo" 7 (fun _ => none) audit_reqs
           0).1 "octo/demo" 7).map historyPairs =
       if (run_transitions "octo/demo" 7 (fun _ => none) audit_reqs 0).2 = []
       then none
       else some (run_transitions "octo/demo" 7 (fun _ => none) audit_reqs
         0).2) ∧
     ((load_state (run_transitions "octo/demo" 7 (fun _ => none) audit_reqs
           0).1 "octo/demo" 7).map IssueState.status =
       ((run_transitions "octo/demo" 7 (fun _ => none) audit_reqs
           0).2.getLast?).map Prod.snd))) ∧
    ((run_updates "octo/demo" 7 (fun _ => none) update_reqs 0).2 =
      [(IssueStatus.new, IssueStatus.analyzing),
       (IssueStatus.analyzing, IssueStatus.merged)] ∧
     (((issue_record (run_updates "octo/demo" 7 (fun _ => none) update_reqs
           0).1 "octo/demo" 7).map historyPairs =
       if (run_updates "octo/demo" 7 (fun _ => none) update_reqs 0).2 = []
       then none
       else some (run_updates "octo/demo" 7 (fun _ => none) update_reqs
         0).2) ∧
     ((issue_record (run_updates "octo/demo" 7 (fun _ => none) update_reqs
           0).1 "octo/demo" 7).map IssueState.status =
       ((run_updates "octo/demo" 7 (fun _ => none) update_reqs
           0).2.getLast?).map Prod.snd))) :=
  ⟨⟨by decide,
    C4_status_history_audit_amended.1 (fun _ => none) "octo/demo" 7 audit_reqs
      0 rfl (by simp [audit_reqs])⟩,
   ⟨by decide,
    C4_status_history_audit_amended.2 (fun _ => none) "octo/demo" 7 update_reqs
      0 rfl⟩⟩

/-! ### The automated flow of `app-simple.py` (C5, C6, C8) -/

lemma run_fresh_issue_historyPairs (repository : String) (issue_number : Nat)
    (a : AnalysisInput) (pr : PrOutcome) :
    (issue_record (run_fresh_issue repository issue_number a pr) repository
        issue_number).map historyPairs =
      some (if (4 : ℚ) / 5 ≤ a.confidence then
        [(IssueStatus.new, IssueStatus.new),
         (IssueStatus.new, IssueStatus.analyzing),
         (IssueStatus.analyzing, IssueStatus.analyzed),
         (IssueStatus.analyzed, IssueStatus.approved),
         (IssueStatus.approved, IssueStatus.in_progress)] ++
        (match pr with
         | .created_merged _ =>
            [(IssueStatus.in_progress, IssueStatus.pr_created),
             (IssueStatus.pr_created, IssueStatus.completed),
             (IssueStatus.completed, IssueStatus.merged)]
         | .created_merge_failed _ =>
            [(IssueStatus.in_progress, IssueStatus.pr_created),
             (IssueStatus.pr_created, IssueStatus.completed),
             (IssueStatus.completed, IssueStatus.blocked)]
         | .create_failed => [(IssueStatus.in_progress, IssueStatus.blocked)]
         | .raised _ => [(IssueStatus.in_progress, IssueStatus.blocked)])
      else
        [(IssueStatus.new, IssueStatus.new),
         (IssueStatus.new, IssueStatus.analyzing),
         (IssueStatus.analyzing, IssueStatus.analyzed),
         (IssueStatus.analyzed, IssueStatus.review_needed)]) := by
  by_cases hc : (4 : ℚ) / 5 ≤ a.confidence
  · rw [if_pos hc]
    cases pr <;>
      simp [run_fresh_issue, process_issue_automation, analyze_issue,
        github_webhook, issue_record, update_status, hc]
  · rw [if_neg hc]
    simp [run_fresh_issue, process_issue_automation, analyze_issue,
      github_webhook, issue_record, update_status, hc]

lemma run_fresh_issue_status_error (repository : String) (issue_number : Nat)
    (a : AnalysisInput) (pr : PrOutcome) :
    (issue_record (run_fresh_issue repository issue_number a pr) repository
        issue_number).map (fun s => (s.status, s.error_message)) =
      some (if (4 : ℚ) / 5 ≤ a.confidence then
        (match pr with
         | .created_merged _ => (IssueStatus.merged, (none : Option String))
         | .created_merge_failed _ => (IssueStatus.blocked, none)
         | .create_failed => (IssueStatus.blocked, none)
         | .raised e => (IssueStatus.blocked, some e))
      else (IssueStatus.review_needed, none)) := by
  by_cases hc : (4 : ℚ) / 5 ≤ a.confidence
  · rw [if_pos hc]
    cases pr <;>
      simp [run_fresh_issue, process_issue_automation, analyze_issue,
        github_webhook, issue_record, update_status, hc]
  · rw [if_neg hc]
    simp [run_fresh_issue, process_issue_automation, analyze_issue,
      github_webhook, issue_record, update_status, hc]

lemma analysis_high_confidence : (4 : ℚ) / 5 ≤ analysis_high.confidence := by
  norm_num [analysis_high]

lemma analysis_low_confidence : analysis_low.confidence < (4 : ℚ) / 5 := by
  norm_num [analysis_low]

/-- C5: approval decision at the 0.8 threshold: for a freshly opened issue,
if the classifier's confidence is at least 0.8 (the exact rational 4/5) the
orchestrator commits ANALYZED → APPROVED and continues the automated flow
(history continues through IN_PROGRESS and the PR workflow); if it is below
0.8 the orchestrator commits ANALYZED → REVIEW_NEEDED and performs no
further transition for that triggering event (the history ends there). -/
theorem C5_approval_threshold (repository : String) (issue_number : Nat)
    (a : AnalysisInput) (pr : PrOutcome) :
    ((4 : ℚ) / 5 ≤ a.confidence →
      (issue_record (run_fresh_issue repository issue_number a pr) repository
          issue_number).map historyPairs =
        some ([(IssueStatus.new, IssueStatus.new),
          (IssueStatus.new, IssueStatus.analyzing),
          (IssueStatus.analyzing, IssueStatus.analyzed),
          (IssueStatus.analyzed, IssueStatus.approved),
          (IssueStatus.approved, IssueStatus.in_progress)] ++
          (match pr with
           | .created_merged _ =>
              [(IssueStatus.in_progress, IssueStatus.pr_created),
               (IssueStatus.pr_created, IssueStatus.completed),
               (IssueStatus.completed, IssueStatus.merged)]
           | .created_merge_failed _ =>
              [(IssueStatus.in_progress, IssueStatus.pr_created),
               (IssueStatus.pr_created, IssueStatus.completed),
               (IssueStatus.completed, IssueStatus.blocked)]
           | .create_failed => [(IssueStatus.in_progress, IssueStatus.blocked)]
           | .raised _ => [(IssueStatus.in_progress, IssueStatus.blocked)]))) ∧
    (a.confidence < (4 : ℚ) / 5 →
      (issue_record (run_fresh_issue repository issue_number a pr) repository
          issue_number).map historyPairs =
        some [(IssueStatus.new, IssueStatus.new),
          (IssueStatus.new, IssueStatus.analyzing),
          (IssueStatus.analyzing, IssueStatus.analyzed),
          (IssueStatus.analyzed, IssueStatus.review_needed)]) := by
  constructor
  · intro h
    have hh := run_fresh_issue_historyPairs repository issue_number a pr
    rwa [if_pos h] at hh
  · intro h
    have hh := run_fresh_issue_historyPairs repository issue_number a pr
    rwa [if_neg (not_le.mpr h)] at hh

/-- C5 (witness): confidence 0.9 is approved and runs to MERGED; confidence
0.4 stops at REVIEW_NEEDED. -/
theorem C5_witness :
    ((4 : ℚ) / 5 ≤ analysis_high.confidence ∧
      (issue_record (run_fresh_issue "octo/demo" 7 analysis_high
          (.created_merged 5)) "octo/demo" 7).map historyPairs =
        some [(IssueStatus.new, IssueStatus.new),
          (IssueStatus.new, IssueStatus.analyzing),
          (IssueStatus.analyzing, IssueStatus.analyzed),
          (IssueStatus.analyzed, IssueStatus.approved),
          (IssueStatus.approved, IssueStatus.in_progress),
          (IssueStatus.in_progress, IssueStatus.pr_created),
          (IssueStatus.pr_created, IssueStatus.completed),
          (IssueStatus.completed, IssueStatus.merged)]) ∧
    (analysis_low.confidence < (4 : ℚ) / 5 ∧
      (issue_record (run_fresh_issue "octo/demo" 8 analysis_low
          (.created_merged 5)) "octo/demo" 8).map historyPairs =
        some [(IssueStatus.new, IssueStatus.new),
          (IssueStatus.new, IssueStatus.analyzing),
          (IssueStatus.analyzing, IssueStatus.analyzed),
          (IssueStatus.analyzed, IssueStatus.review_needed)]) :=
  ⟨⟨analysis_high_confidence,
    (C5_approval_threshold "octo/demo" 7 analysis_high
      (.created_merged 5)).1 analysis_high_confidence⟩,
   ⟨analysis_low_confidence,
    (C5_approval_threshold "octo/demo" 8 analysis_low
      (.created_merged 5)).2 analysis_low_confidence⟩⟩

/-- C6 (code evaluation at the failing input): on a merge failure the
orchestrator does commit COMPLETED → BLOCKED: the run with confidence 0.9
whose pull request is created but fails to merge ends with a history entry
from COMPLETED to BLOCKED — an edge the repository's own validation table
rejects. -/
theorem C6_merge_failure_commits_completed_to_blocked :
    ((issue_record (run_fresh_issue "octo/demo" 7 analysis_high
        (.created_merge_failed 5)) "octo/demo" 7).map historyPairs).getD [] =
      [(IssueStatus.new, IssueStatus.new),
       (IssueStatus.new, IssueStatus.analyzing),
       (IssueStatus.analyzing, IssueStatus.analyzed),
       (IssueStatus.analyzed, IssueStatus.approved),
       (IssueStatus.approved, IssueStatus.in_progress),
       (IssueStatus.in_progress, IssueStatus.pr_created),
       (IssueStatus.pr_created, IssueStatus.completed),
       (IssueStatus.completed, IssueStatus.blocked)] ∧
    (IssueStatus.completed, IssueStatus.blocked) ∈
      (((issue_record (run_fresh_issue "octo/demo" 7 analysis_high
        (.created_merge_failed 5)) "octo/demo" 7).map historyPairs).getD []) ∧
    is_valid_transition .completed .blocked = false := by
  have hh := run_fresh_issue_historyPairs "octo/demo" 7 analysis_high
    (.created_merge_failed 5)
  rw [if_pos analysis_high_confidence] at hh
  refine ⟨?_, ?_, by decide⟩
  · rw [hh]
    rfl
  · rw [hh]
    simp

/-- C8 (counterexample): the merge-failure commit to BLOCKED leaves
`error_message` unset (`None`), refuting "every committed transition whose
target is BLOCKED sets errorMessage to a non-empty string"; and a transition
out of BLOCKED does not clear an existing error message, refuting the
clearing half. -/
theorem C8_counterexample :
    (issue_record (run_fresh_issue "octo/demo" 7 analysis_high
        (.created_merge_failed 5)) "octo/demo" 7).map
      (fun s => (s.status, s.error_message)) =
      some (IssueStatus.blocked, none) ∧
    ((update_status simple_blocked_store "octo/demo" 7 .in_progress "retry"
        {} 11).2 (simple_key "octo/demo" 7)).map
      (fun s => (s.status, s.error_message)) =
      some (IssueStatus.in_progress, some "merge failed") := by
  constructor
  · have hh := run_fresh_issue_status_error "octo/demo" 7 analysis_high
      (.created_merge_failed 5)
    rw [if_pos analysis_high_confidence] at hh
    exact hh
  · decide

/-- C8 (amended): `error_message` is set on a committed transition to BLOCKED
only when the committing call passes an `error_message` keyword (the
exception-handler path): the merge-failure and PR-creation-failure commits to
BLOCKED leave it unset (`None` for a freshly opened issue), the
exception-path commit sets it to the raised error text, and no transition out
of BLOCKED clears it — any update whose kwargs carry no `error_message`
preserves the stored value unchanged. -/
theorem C8_error_message_lifecycle :
    (∀ (repository : String) (issue_number p : Nat) (a : AnalysisInput),
      (4 : ℚ) / 5 ≤ a.confidence →
      (issue_record (run_fresh_issue repository issue_number a
          (.created_merge_failed p)) repository issue_number).map
        (fun s => (s.status, s.error_message)) =
        some (IssueStatus.blocked, none)) ∧
    (∀ (repository : String) (issue_number : Nat) (a : AnalysisInput),
      (4 : ℚ) / 5 ≤ a.confidence →
      (issue_record (run_fresh_issue repository issue_number a .create_failed)
          repository issue_number).map
        (fun s => (s.status, s.error_message)) =
        some (IssueStatus.blocked, none)) ∧
    (∀ (repository : String) (issue_number : Nat) (a : AnalysisInput)
        (e : String),
      (4 : ℚ) / 5 ≤ a.confidence →
      (issue_record (run_fresh_issue repository issue_number a (.raised e))
          repository issue_number).map
        (fun s => (s.status, s.error_message)) =
        some (IssueStatus.blocked, some e)) ∧
    (∀ (states : SimpleStore) (repository : String) (issue_number : Nat)
        (new_status : IssueStatus) (message : String) (kw : KwArgs) (now : Nat)
        (s : IssueState),
      states (simple_key repository issue_number) = some s →
      kw.error_message = none →
      ((update_status states repository issue_number new_status message kw
          now).2 (simple_key repository issue_number)).map
        IssueState.error_message = some s.error_message) := by
  refine ⟨?_, ?_, ?_, ?_⟩
  · intro repository issue_number p a h
    have hh := run_fresh_issue_status_error repository issue_number a
      (.created_merge_failed p)
    rwa [if_pos h] at hh
  · intro repository issue_number a h
    have hh := run_fresh_issue_status_error repository issue_number a
      .create_failed
    rwa [if_pos h] at hh
  · intro repository issue_number a e h
    have hh := run_fresh_issue_status_error repository issue_number a
      (.raised e)
    rwa [if_pos h] at hh
  · intro states repository issue_number new_status message kw now s hs hkw
    rw [update_status_at_key]
    simp [hs, hkw]

/-- C8 (witness): the three BLOCKED paths at concrete inputs, and a concrete
transition out of BLOCKED that keeps the error message. -/
theorem C8_witness :
    ((issue_record (run_fresh_issue "octo/demo" 7 analysis_high
        (.created_merge_failed 5)) "octo/demo" 7).map
      (fun s => (s.status, s.error_message)) =
      some (IssueStatus.blocked, none)) ∧
    ((issue_record (run_fresh_issue "octo/demo" 8 analysis_high .create_failed)
        "octo/demo" 8).map (fun s => (s.status, s.error_message)) =
      some (IssueStatus.blocked, none)) ∧
    ((issue_record (run_fresh_issue "octo/demo" 9 analysis_high
        (.raised "boom")) "octo/demo" 9).map
      (fun s => (s.status, s.error_message)) =
      some (IssueStatus.blocked, some "boom")) ∧
    (((update_status simple_blocked_store "octo/demo" 7 .in_progress "retry"
        {} 11).2 (simple_key "octo/demo" 7)).map IssueState.error_message =
      some blocked_state.error_message) :=
  ⟨C8_error_message_lifecycle.1 "octo/demo" 7 5 analysis_high
     analysis_high_confidence,
   C8_error_message_lifecycle.2.1 "octo/demo" 8 analysis_high
     analysis_high_confidence,
   C8_error_message_lifecycle.2.2.1 "octo/demo" 9 analysis_high "boom"
     analysis_high_confidence,
   C8_error_message_lifecycle.2.2.2 simple_blocked_store "octo/demo" 7
     .in_progress "retry" {} 11 blocked_state (by decide) rfl⟩
